import Mathlib

/-!
Verification development for the Sybil-Defender agent.

The definitions below are a shallow embedding of the batch orchestration in
src/src/agent.py (functions handle_transaction_async and process_transactions)
and of the Alembic migration
src/alembic/versions/f04874bb37a6_changed_id_to_integer.py.

External collaborators that agent.py calls but whose code is not part of the
repository snapshot (graph_controller, run_algorithm, analyze_communities,
merge_final_graphs, write_graph_to_database, the database helpers) are either
kept abstract as environment parameters, or — where a claim depends on their
contract — modelled from the spec; such definitions carry a doc comment
starting with "Modelled from the spec:".
-/

namespace SybilDefender

/-! ## Node/edge attribute values of the final graph

agent.py lines 141-153 inspect the runtime shape of each attribute value of
the final graph (Python `isinstance` checks) before the graph is written to
GraphML.  `AttrValue` is a closed model of the shapes that matter there:
scalars (text, integer, boolean; other scalar shapes behave like these),
class objects (`isinstance(value, type)`), Python lists and Python dicts. -/

inductive AttrValue where
  | str (s : String)
  | int (n : Int)
  | bool (b : Bool)
  | typeVal (name : String)
  | list (xs : List AttrValue)
  | dict (entries : List (String × AttrValue))
deriving Repr

mutual

/-- Whether and how `json.dumps` renders the value: strings, numbers and
booleans encode, lists and dicts encode when their members do, class objects
raise TypeError (`none`). -/
def jsonDumps : AttrValue → Option String
  | .str s => some ("\"" ++ s ++ "\"")
  | .int n => some (toString n)
  | .bool b => some (toString b)
  | .typeVal _ => none
  | .list xs => (jsonDumpsList xs).map (fun b => "[" ++ b ++ "]")
  | .dict es => (jsonDumpsEntries es).map (fun b => "\x7b" ++ b ++ "\x7d")

def jsonDumpsList : List AttrValue → Option String
  | [] => some ""
  | x :: xs =>
    match jsonDumps x, jsonDumpsList xs with
    | some a, some b => some (a ++ "," ++ b)
    | _, _ => none

def jsonDumpsEntries : List (String × AttrValue) → Option String
  | [] => some ""
  | (k, v) :: es =>
    match jsonDumps v, jsonDumpsEntries es with
    | some a, some b => some ("\"" ++ k ++ "\":" ++ a ++ "," ++ b)
    | _, _ => none

end

/-- A scalar attribute value, the only shapes the persisted GraphML format
supports. -/
def isScalar : AttrValue → Bool
  | .str _ => true
  | .int _ => true
  | .bool _ => true
  | _ => false

/-- One node's or edge's attribute dictionary (`data` in agent.py). -/
abbrev AttrBag := List (String × AttrValue)

/-- agent.py lines 142-146 and 149-153, the body of the per-attribute loop:

    if isinstance(value, type):   data[key] = str(value)
    elif isinstance(value, list): data[key] = json.dumps(value)

`str(value)` of a class object is a scalar text; `json.dumps` raises
(TypeError, aborting the batch) when the list is not JSON-encodable; every
other value — scalar or not — is left as it is. -/
def convertValue : AttrValue → Except Unit AttrValue
  | .typeVal n => .ok (.str ("<class " ++ n ++ ">"))
  | .list xs =>
    match jsonDumps (.list xs) with
    | some s => .ok (.str s)
    | none => .error ()
  | v => .ok v

def convertBag (bag : AttrBag) : Except Unit AttrBag :=
  bag.mapM (fun kv => (convertValue kv.2).map (fun v => (kv.1, v)))

/-- The final (cluster) graph handed between merge_final_graphs, the
serialization loops, save_graph and write_graph_to_database: nodes and
directed edges, each with an attribute bag. -/
structure FGraph where
  nodes : List (Nat × AttrBag)
  edges : List ((Nat × Nat) × AttrBag)

def emptyFGraph : FGraph := ⟨[], []⟩

/-- agent.py lines 141-153: the two serialization loops, over every node's
data then every edge's data.  A `json.dumps` failure anywhere propagates
(the batch aborts). -/
def serializeFinalGraph (g : FGraph) : Except Unit FGraph := do
  let ns ← g.nodes.mapM (fun nd => (convertBag nd.2).map (fun b => (nd.1, b)))
  let es ← g.edges.mapM (fun ed => (convertBag ed.2).map (fun b => (ed.1, b)))
  pure ⟨ns, es⟩

def bagHasNonScalar (bag : AttrBag) : Bool :=
  bag.any (fun kv => !isScalar kv.2)

def graphHasNonScalar (g : FGraph) : Bool :=
  g.nodes.any (fun nd => bagHasNonScalar nd.2)
    || g.edges.any (fun ed => bagHasNonScalar ed.2)

/-! ## The data model of the raw transaction log -/

/-- A row of the Transfer table (src/database/models.py, shape per the spec's
data model): the fields the orchestration reads.  Addresses are abstracted to
naturals. -/
structure Transfer where
  id : Nat
  sender : Nat
  receiver : Nat
  amount : Int
  timestamp : Nat
  processed : Bool
deriving Repr, DecidableEq

/-- A directed edge of the transaction graph, (sender, receiver). -/
abbrev GEdge := Nat × Nat

/-- A Finding returned to the caller of handle_transaction. -/
structure Finding where
  clusterId : Nat
  members : List Nat
deriving Repr, DecidableEq

/-! ## Process-wide state

The globals agent.py mutates (src/utils/globals plus the Transfer table and
the persisted final-graph file):
  * `counter`          — globals.transaction_counter
  * `transfers`        — the Transfer table rows
  * `g1Edges`          — the edge set of the global graph globals.G1
  * `globalAddedEdges` — globals.global_added_edges
  * `g2`               — the durable community graph globals.G2, as node sets
  * `finalFile`        — the persisted src/graph/graphs/final_graph.graphml
  * `isInitialBatch`   — globals.is_initial_batch -/
structure AgentState where
  counter : Nat
  transfers : List Transfer
  g1Edges : List GEdge
  globalAddedEdges : List GEdge
  g2 : List (List Nat)
  finalFile : Option FGraph
  isInitialBatch : Bool

/-! ## The pipeline and its failure points -/

/-- The statements of process_transactions that can raise, in source order.
Each names the stage of the batch pipeline it belongs to. -/
inductive PStage where
  | building              -- add_transactions_to_graph, line 99
  | adjusting             -- adjust_edge_weights_and_variances .. write_graphml G1, lines 106-109
  | partitioning          -- run_algorithm, line 115
  | processingPartitions  -- process_partitions / write_graphml, lines 117-118
  | writingG2             -- write_graphml G2, line 128
  | scoring               -- analyze_communities, line 130
  | loadingFinal          -- load_graph, line 133
  | finalMerging          -- merge_final_graphs, line 139
  | saving                -- save_graph, line 155
  | writingDB             -- write_graph_to_database, line 157
  | committing            -- session.commit, line 161
deriving Repr, DecidableEq

/-- The environment of one pipeline run: which statements raise this run, and
the values computed by the external collaborators (community detection,
scoring, final-graph merge, database write), which are not part of the
repository snapshot and are kept abstract. -/
structure PEnv where
  fails : PStage → Bool
  runAlgorithm : List GEdge → List (List Nat)
  processPartitions : List (List Nat) → List GEdge → List (List Nat)
  analyzeCommunities : List (List Nat) → Option (List (List Nat))
  mergeFinalGraphs : List (List Nat) → FGraph → FGraph
  writeGraphToDatabase : FGraph → List Finding

/-- Modelled from the spec: add_transactions_to_graph (GraphBuilder, in
src/graph/graph_controller.py which is absent from the snapshot) "Returns
exactly the set of edges touched this batch" — one directed (sender,
receiver) edge per transfer of the batch. -/
def addTransactionsToGraph (ts : List Transfer) : List GEdge :=
  ts.map (fun t => (t.sender, t.receiver))

/-- agent.py lines 92-95: the batch is every Transfer row with
processed == False. -/
def batchOf (s : AgentState) : List Transfer :=
  s.transfers.filter (fun t => t.processed = false)

/-- The state after line 99: the global graph G1 has gained the touched
edges. -/
def afterBuildState (s : AgentState) : AgentState :=
  {s with g1Edges := s.g1Edges ++ addTransactionsToGraph (batchOf s)}

/-- The state after line 104: globals.global_added_edges extended by the
edges the GraphBuilder returned. -/
def afterExtendState (s : AgentState) : AgentState :=
  let a := afterBuildState s
  {a with globalAddedEdges := a.globalAddedEdges ++ addTransactionsToGraph (batchOf s)}

/-- agent.py line 110: the edge set of
`G1.edge_subgraph(globals.global_added_edges)` — the listed edges that are
edges of G1. -/
def subgraphEdges (s : AgentState) : List GEdge :=
  s.globalAddedEdges.filter (fun e => decide (e ∈ s.g1Edges))

/-- Modelled from the spec: load_graph (src/graph/final_graph_controller.py,
absent from the snapshot) reads the persisted final graph back; it fails when
no file has been persisted. -/
def loadGraph (file : Option FGraph) : Except Unit FGraph :=
  match file with
  | some g => .ok g
  | none => .error ()

/-- agent.py lines 132-137: the graph the final merge starts from.  The
first-batch case is decided by the explicit flag globals.is_initial_batch
(and clears it); otherwise the persisted final graph is loaded fresh, and a
load failure aborts the batch. -/
def initialFinalGraph (env : PEnv) (s : AgentState) :
    Except AgentState (FGraph × AgentState) :=
  if s.isInitialBatch = false then
    if env.fails .loadingFinal then .error s
    else
      match loadGraph s.finalFile with
      | .ok g => .ok (g, s)
      | .error _ => .error s
  else
    .ok (emptyFGraph, {s with isInitialBatch := false})

/-- agent.py lines 130-166, the tail of process_transactions from the
analyze_communities call on: `updated` is the updated subgraph handed over
from line 117 (abstracted to its communities) and `s2` the process state at
that point.  Factored out so each half of the pipeline stays small in
proofs; `processTransactions` below glues the halves in source order. -/
def ptBack (env : PEnv) (updated : List (List Nat)) (s2 : AgentState) :
    Except AgentState (AgentState × List Finding) :=
  -- line 130: score the communities; a falsy result becomes []
  if env.fails .scoring then .error s2 else
  let analyzed := (env.analyzeCommunities updated).getD []
  -- lines 132-137: choose the final graph to merge into
  match initialFinalGraph env s2 with
  | .error sE => .error sE
  | .ok (fg0, s3) =>
  -- line 139: merge this batch's clusters into it
  if env.fails .finalMerging then .error s3 else
  let fg1 := env.mergeFinalGraphs analyzed fg0
  -- lines 141-153: scalar-encode class- and list-shaped attributes
  match serializeFinalGraph fg1 with
  | .error _ => .error s3
  | .ok fg2 =>
  -- line 155: save_graph overwrites the persisted final-graph snapshot
  if env.fails .saving then .error s3 else
  let s4 := {s3 with finalFile := some fg2}
  -- line 157: write the clusters to the database, producing the findings
  if env.fails .writingDB then .error s4 else
  let fnd := env.writeGraphToDatabase fg2
  -- lines 159-161: mark the batch processed and commit
  if env.fails .committing then .error s4 else
  let marked := s4.transfers.map (fun (t : Transfer) => {t with processed := true})
  let s5 := {s4 with transfers := marked}
  -- line 163: reset globals.global_added_edges
  let s6 := {s5 with globalAddedEdges := []}
  .ok (s6, fnd)

/-- agent.py lines 87-166, process_transactions.  `Except.error s` is the
pipeline raising with the process-wide state left as `s` at the raise point
(the enclosing session is closed without commit, so uncommitted row changes
are rolled back); `Except.ok (s, findings)` is a successful flush.

Line-by-line correspondence is noted inline.  Lines 120-126
(merge_new_communities / the G2 update) are commented out in the source, so
no step of the pipeline touches `g2`. -/
def processTransactions (env : PEnv) (s0 : AgentState) :
    Except AgentState (AgentState × List Finding) :=
  -- lines 92-95 pull the unprocessed transfers (batchOf s0);
  -- line 99: fold them into G1; the touched edges are returned
  let s1 := afterBuildState s0
  if env.fails .building then .error s1 else
  -- line 104: globals.global_added_edges.extend(added_edges)
  let s2 := afterExtendState s0
  -- lines 106-109: adjust weights/variances, convert decimals, write G1
  if env.fails .adjusting then .error s2 else
  -- line 110: the batch subgraph
  let sub := subgraphEdges s2
  -- line 115: community detection on the batch subgraph
  if env.fails .partitioning then .error s2 else
  let parts := env.runAlgorithm sub
  -- lines 117-118: process_partitions, write the updated subgraph
  if env.fails .processingPartitions then .error s2 else
  let updated := env.processPartitions parts sub
  -- lines 120-126: merge_new_communities is commented out in the source,
  -- so the durable community graph G2 is never updated
  -- line 128: write G2
  if env.fails .writingG2 then .error s2 else
  -- lines 130-166: the tail of the pipeline
  ptBack env updated s2

/-! ## The per-event handler -/

/-- The environment of one call of handle_transaction_async: the admission
verdict, whether the row insert of lines 60-68 fails, the row it would
insert, the pipeline environment, and the Evictor calls of lines 77-78. -/
structure HEnv where
  passesHeuristics : Bool
  insertFails : Bool
  newTransfer : Transfer
  penv : PEnv
  shedTransfersFails : Bool
  shedContractsFails : Bool
  retentionWindow : Nat
  now : Nat

/-- Modelled from the spec: shed_oldest_Transfers (src/database/db_utils.py,
absent from the snapshot) deletes rows that are both processed and outside
the retention window; it never removes an unprocessed row. -/
def shedOldest (window now : Nat) (ts : List Transfer) : List Transfer :=
  ts.filter (fun t => !(t.processed && t.timestamp + window < now))

/-- agent.py lines 77-78: shed_oldest_Transfers then
shed_oldest_ContractTransactions; either may raise, and the raise propagates
(contract-transaction rows are outside the modelled state). -/
def shedStages (env : HEnv) (s : AgentState) : Except AgentState AgentState :=
  if env.shedTransfersFails then .error s
  else
    let s1 := {s with transfers := shedOldest env.retentionWindow env.now s.transfers}
    if env.shedContractsFails then .error s1 else .ok s1

/-- agent.py lines 74-82: the flush path inside the threshold branch — run
the pipeline, shed old rows, and only then reset the counter to zero.  Any
raise propagates to the caller with the counter untouched. -/
def flushAndReset (env : HEnv) (s : AgentState) :
    Except AgentState (AgentState × List Finding) :=
  match processTransactions env.penv s with
  | .error sE => .error sE
  | .ok (s1, fnd) =>
    match shedStages env s1 with
    | .error sE => .error sE
    | .ok s2 => .ok ({s2 with counter := 0}, fnd)

/-- agent.py lines 60-68: the row insert runs in its own try block — on
success the row is appended and committed, on failure the session is rolled
back (the row is dropped) and the error only logged. -/
def afterInsertState (env : HEnv) (s : AgentState) : AgentState :=
  if env.insertFails then s
  else {s with transfers := s.transfers ++ [env.newTransfer]}

/-- agent.py lines 53-84, handle_transaction_async for one event.
  * lines 57-58: an event the initial heuristics reject returns [] at once;
  * lines 60-68: the row insert (`afterInsertState`);
  * line 69: update_transaction_counter increments the counter;
  * lines 73-82: at the threshold the pipeline runs, rows are shed, the
    counter is reset and the findings returned; otherwise []. -/
def handleTransactionAsync (N : Nat) (env : HEnv) (s : AgentState) :
    Except AgentState (AgentState × List Finding) :=
  if env.passesHeuristics = true then
    let s2 := {afterInsertState env s with
      counter := (afterInsertState env s).counter + 1}
    if N ≤ s2.counter then flushAndReset env s2
    else .ok (s2, [])
  else .ok (s, [])



/-! ## Frame lemmas: what one pipeline run does to the process-wide state -/

theorem initialFinalGraph_error_eq {env : PEnv} {s sE : AgentState}
    (h : initialFinalGraph env s = .error sE) : sE = s := by
  unfold initialFinalGraph at h
  split at h
  · split at h
    · cases h; rfl
    · unfold loadGraph at h
      split at h
      · cases h
      · cases h; rfl
  · cases h

theorem initialFinalGraph_ok_state {env : PEnv} {s s' : AgentState} {g : FGraph}
    (h : initialFinalGraph env s = .ok (g, s')) :
    (s.isInitialBatch = false ∧ s' = s) ∨ s' = {s with isInitialBatch := false} := by
  unfold initialFinalGraph at h
  split at h
  · rename_i hflag
    split at h
    · cases h
    · unfold loadGraph at h
      split at h
      · cases h; exact Or.inl ⟨hflag, rfl⟩
      · cases h
  · cases h; exact Or.inr rfl

/-- The relation between the state a `ptBack` run started from and its
outcome: an abort leaves every modelled field but `finalFile` and
`isInitialBatch` unchanged; a successful run additionally marks every row
processed, clears the added-edge accumulator, clears the first-batch flag and
persists a final graph. -/
def BackFrame (s : AgentState) :
    Except AgentState (AgentState × List Finding) → Prop
  | .error sE => sE.counter = s.counter ∧ sE.transfers = s.transfers ∧
      sE.g2 = s.g2 ∧ sE.g1Edges = s.g1Edges ∧
      sE.globalAddedEdges = s.globalAddedEdges
  | .ok (s', _) => s'.counter = s.counter ∧
      s'.transfers = s.transfers.map (fun t => {t with processed := true}) ∧
      s'.g2 = s.g2 ∧ s'.g1Edges = s.g1Edges ∧ s'.globalAddedEdges = [] ∧
      s'.isInitialBatch = false ∧ ∃ fg, s'.finalFile = some fg

/-- Like `BackFrame` but for a whole `processTransactions` run: the global
graph has additionally gained the batch edges, and on an abort the
added-edge accumulator is the old one or the old one extended by the batch
edges, depending on where the abort happened. -/
def PipeFrame (s : AgentState) :
    Except AgentState (AgentState × List Finding) → Prop
  | .error sE => sE.counter = s.counter ∧ sE.transfers = s.transfers ∧
      sE.g2 = s.g2 ∧
      sE.g1Edges = s.g1Edges ++ addTransactionsToGraph (batchOf s) ∧
      (sE.globalAddedEdges = s.globalAddedEdges ∨
       sE.globalAddedEdges = s.globalAddedEdges ++ addTransactionsToGraph (batchOf s))
  | .ok (s', _) => s'.counter = s.counter ∧
      s'.transfers = s.transfers.map (fun t => {t with processed := true}) ∧
      s'.g2 = s.g2 ∧
      s'.g1Edges = s.g1Edges ++ addTransactionsToGraph (batchOf s) ∧
      s'.globalAddedEdges = [] ∧
      s'.isInitialBatch = false ∧ ∃ fg, s'.finalFile = some fg

theorem ptBack_frame (env : PEnv) (u : List (List Nat)) (s : AgentState) :
    BackFrame s (ptBack env u s) := by
  unfold ptBack
  dsimp only
  cases hsc : env.fails .scoring <;> try dsimp only
  case true => exact ⟨rfl, rfl, rfl, rfl, rfl⟩
  case false =>
  cases hig : initialFinalGraph env s with
  | error sE =>
    try dsimp only
    rw [initialFinalGraph_error_eq hig]
    exact ⟨rfl, rfl, rfl, rfl, rfl⟩
  | ok p =>
    rcases p with ⟨fg0, s3⟩
    try dsimp only
    have h3 := initialFinalGraph_ok_state hig
    cases hfm : env.fails .finalMerging <;> try dsimp only
    case true =>
      rcases h3 with ⟨_, h3⟩ | h3 <;> subst h3 <;> exact ⟨rfl, rfl, rfl, rfl, rfl⟩
    case false =>
    cases hser : serializeFinalGraph
        (env.mergeFinalGraphs ((env.analyzeCommunities u).getD []) fg0) with
    | error e =>
      try dsimp only
      rcases h3 with ⟨_, h3⟩ | h3 <;> subst h3 <;> exact ⟨rfl, rfl, rfl, rfl, rfl⟩
    | ok fg2 =>
      try dsimp only
      cases hsv : env.fails .saving <;> try dsimp only
      case true =>
        rcases h3 with ⟨_, h3⟩ | h3 <;> subst h3 <;> exact ⟨rfl, rfl, rfl, rfl, rfl⟩
      case false =>
      cases hwd : env.fails .writingDB <;> try dsimp only
      case true =>
        rcases h3 with ⟨_, h3⟩ | h3 <;> subst h3 <;> exact ⟨rfl, rfl, rfl, rfl, rfl⟩
      case false =>
      cases hcm : env.fails .committing <;> try dsimp only
      case true =>
        rcases h3 with ⟨_, h3⟩ | h3 <;> subst h3 <;> exact ⟨rfl, rfl, rfl, rfl, rfl⟩
      case false =>
      rcases h3 with ⟨hflag, h3⟩ | h3 <;> subst h3
      · exact ⟨rfl, rfl, rfl, rfl, rfl, hflag, fg2, rfl⟩
      · exact ⟨rfl, rfl, rfl, rfl, rfl, rfl, fg2, rfl⟩

theorem frame_bridge {s : AgentState}
    {r : Except AgentState (AgentState × List Finding)}
    (h : BackFrame (afterExtendState s) r) : PipeFrame s r := by
  cases r with
  | error sE =>
    obtain ⟨h1, h2, h3, h4, h5⟩ := h
    exact ⟨h1, h2, h3, h4, Or.inr h5⟩
  | ok p =>
    rcases p with ⟨s', f⟩
    obtain ⟨h1, h2, h3, h4, h5, h6, h7⟩ := h
    exact ⟨h1, h2, h3, h4, h5, h6, h7⟩

theorem pt_frame (env : PEnv) (s : AgentState) :
    PipeFrame s (processTransactions env s) := by
  unfold processTransactions
  dsimp only
  cases hb : env.fails .building <;> try dsimp only
  case true => exact ⟨rfl, rfl, rfl, rfl, Or.inl rfl⟩
  case false =>
  cases ha : env.fails .adjusting <;> try dsimp only
  case true => exact ⟨rfl, rfl, rfl, rfl, Or.inr rfl⟩
  case false =>
  cases hp : env.fails .partitioning <;> try dsimp only
  case true => exact ⟨rfl, rfl, rfl, rfl, Or.inr rfl⟩
  case false =>
  cases hpp : env.fails .processingPartitions <;> try dsimp only
  case true => exact ⟨rfl, rfl, rfl, rfl, Or.inr rfl⟩
  case false =>
  cases hw : env.fails .writingG2 <;> try dsimp only
  case true => exact ⟨rfl, rfl, rfl, rfl, Or.inr rfl⟩
  case false =>
  exact frame_bridge (ptBack_frame env _ _)


/-! ## Frame lemmas about the Evictor calls and the whole handler -/

theorem shedStages_error_state {env : HEnv} {s sE : AgentState}
    (h : shedStages env s = .error sE) :
    sE = s ∨
    sE = {s with transfers := shedOldest env.retentionWindow env.now s.transfers} := by
  unfold shedStages at h
  split at h
  · cases h; exact Or.inl rfl
  · dsimp only at h
    split at h
    · cases h; exact Or.inr rfl
    · cases h

theorem shedStages_ok_state {env : HEnv} {s s' : AgentState}
    (h : shedStages env s = .ok s') :
    s' = {s with transfers := shedOldest env.retentionWindow env.now s.transfers} := by
  unfold shedStages at h
  split at h
  · cases h
  · dsimp only at h
    split at h
    · cases h
    · cases h; rfl

/-- Any state in which a `flushAndReset` run raises carries the counter it
started with: the reset on the success path is never reached. -/
theorem flushAndReset_error_counter {env : HEnv} {s sE : AgentState}
    (h : flushAndReset env s = .error sE) : sE.counter = s.counter := by
  unfold flushAndReset at h
  cases hpt : processTransactions env.penv s with
  | error sE2 =>
    rw [hpt] at h
    cases h
    have hf := pt_frame env.penv s
    rw [hpt] at hf
    exact hf.1
  | ok p =>
    rcases p with ⟨s1, fnd⟩
    rw [hpt] at h
    dsimp only at h
    have hf := pt_frame env.penv s
    rw [hpt] at hf
    cases hsh : shedStages env s1 with
    | error sE2 =>
      rw [hsh] at h
      cases h
      rcases shedStages_error_state hsh with h2 | h2 <;> subst h2
      · exact hf.1
      · exact hf.1
    | ok s2 =>
      rw [hsh] at h
      cases h

/-- A successful `flushAndReset` run ends with the counter at zero and every
row of the Transfer table marked processed. -/
theorem flushAndReset_ok_state {env : HEnv} {s s' : AgentState}
    {f : List Finding} (h : flushAndReset env s = .ok (s', f)) :
    s'.counter = 0 ∧ (∀ t ∈ s'.transfers, t.processed = true) := by
  unfold flushAndReset at h
  cases hpt : processTransactions env.penv s with
  | error sE2 => rw [hpt] at h; cases h
  | ok p =>
    rcases p with ⟨s1, fnd⟩
    rw [hpt] at h
    dsimp only at h
    have hf := pt_frame env.penv s
    rw [hpt] at hf
    cases hsh : shedStages env s1 with
    | error sE2 => rw [hsh] at h; cases h
    | ok s2 =>
      rw [hsh] at h
      cases h
      refine ⟨rfl, ?_⟩
      intro t ht
      have h2 := shedStages_ok_state hsh
      subst h2
      dsimp only at ht
      have ht2 : t ∈ s1.transfers := List.mem_of_mem_filter ht
      rw [hf.2.1] at ht2
      rcases List.mem_map.mp ht2 with ⟨t0, _, ht0⟩
      rw [← ht0]

theorem afterInsertState_counter (env : HEnv) (s : AgentState) :
    (afterInsertState env s).counter = s.counter := by
  unfold afterInsertState
  split <;> rfl

/-- The state the flush path starts from: the (possibly rolled-back) insert
followed by the counter increment of line 69. -/
def preFlushState (env : HEnv) (s : AgentState) : AgentState :=
  {afterInsertState env s with counter := (afterInsertState env s).counter + 1}

theorem preFlushState_counter (env : HEnv) (s : AgentState) :
    (preFlushState env s).counter = s.counter + 1 := by
  show (afterInsertState env s).counter + 1 = s.counter + 1
  rw [afterInsertState_counter]

/-- When the event is admitted and the incremented counter reaches the
threshold, the handler is exactly the flush path started on the
post-insert, post-increment state. -/
theorem handle_flush_eq (N : Nat) (env : HEnv) (s : AgentState)
    (hp : env.passesHeuristics = true) (hN : N ≤ s.counter + 1) :
    handleTransactionAsync N env s = flushAndReset env (preFlushState env s) := by
  unfold handleTransactionAsync
  rw [hp]
  rw [if_pos rfl]
  rw [if_pos]
  · rfl
  · rw [afterInsertState_counter]
    exact hN

/-- When the event is admitted and the incremented counter stays below the
threshold, the handler returns the incremented state and no findings. -/
theorem handle_no_flush_eq (N : Nat) (env : HEnv) (s : AgentState)
    (hp : env.passesHeuristics = true) (hN : s.counter + 1 < N) :
    handleTransactionAsync N env s = .ok (preFlushState env s, []) := by
  unfold handleTransactionAsync
  rw [hp]
  rw [if_pos rfl]
  rw [if_neg]
  · rfl
  · rw [afterInsertState_counter]
    exact Nat.not_le_of_lt hN

/-- Any raise anywhere in the flush path leaves the counter exactly one above
the value it had when the event arrived (the increment of line 69 happened,
the reset of line 80 was never reached). -/
theorem handle_error_counter {N : Nat} {env : HEnv} {s sE : AgentState}
    (h : handleTransactionAsync N env s = .error sE) :
    sE.counter = s.counter + 1 := by
  cases hp : env.passesHeuristics with
  | false =>
    unfold handleTransactionAsync at h
    rw [hp] at h
    rw [if_neg (by decide)] at h
    cases h
  | true =>
    rcases le_or_lt N (s.counter + 1) with hN | hN
    · rw [handle_flush_eq N env s hp hN] at h
      have hc := flushAndReset_error_counter h
      rw [hc, preFlushState_counter]
    · rw [handle_no_flush_eq N env s hp hN] at h
      cases h


/-! ## The added-edge accumulator invariant

globals.global_added_edges is reset only at the end of a successful flush
(line 163), so after a failed batch it can carry edges over into the next
pipeline run.  The invariant below states that everything it carries is
still an edge touched by a currently unprocessed transfer (the failed
batch's rows were never marked processed), and is already an edge of G1. -/

def Inv (s : AgentState) : Prop :=
  ∀ e ∈ s.globalAddedEdges,
    e ∈ addTransactionsToGraph (batchOf s) ∧ e ∈ s.g1Edges

theorem inv_congr {s s' : AgentState}
    (hg : s'.globalAddedEdges = s.globalAddedEdges)
    (ht : s'.transfers = s.transfers) (h1 : s'.g1Edges = s.g1Edges)
    (hInv : Inv s) : Inv s' := by
  intro e he
  rw [hg] at he
  rcases hInv e he with ⟨ha, hb⟩
  constructor
  · unfold batchOf
    rw [ht]
    exact ha
  · rw [h1]
    exact hb

theorem inv_gae_nil {s : AgentState} (h : s.globalAddedEdges = []) : Inv s := by
  intro e he
  rw [h] at he
  cases he

theorem inv_afterInsert {env : HEnv} {s : AgentState} (hInv : Inv s) :
    Inv (afterInsertState env s) := by
  unfold afterInsertState
  split
  · exact hInv
  · intro e he
    rcases hInv e he with ⟨ha, hb⟩
    refine ⟨?_, hb⟩
    unfold batchOf addTransactionsToGraph at ha ⊢
    dsimp only
    rw [List.filter_append, List.map_append]
    exact List.mem_append_left _ ha

theorem inv_preFlush {env : HEnv} {s : AgentState} (hInv : Inv s) :
    Inv (preFlushState env s) :=
  inv_congr rfl rfl rfl (inv_afterInsert hInv)

theorem inv_pt_error {env : PEnv} {s sE : AgentState} (hInv : Inv s)
    (h : processTransactions env s = .error sE) : Inv sE := by
  have hf := pt_frame env s
  rw [h] at hf
  rcases hf with ⟨-, ht, -, h4, h5⟩
  intro e he
  have hbatch : batchOf sE = batchOf s := by
    unfold batchOf
    rw [ht]
  rcases h5 with h5 | h5
  · rw [h5] at he
    rcases hInv e he with ⟨ha, hb⟩
    rw [hbatch, h4]
    exact ⟨ha, List.mem_append_left _ hb⟩
  · rw [h5] at he
    rcases List.mem_append.mp he with he2 | he2
    · rcases hInv e he2 with ⟨ha, hb⟩
      rw [hbatch, h4]
      exact ⟨ha, List.mem_append_left _ hb⟩
    · rw [hbatch, h4]
      exact ⟨he2, List.mem_append_right _ he2⟩

theorem inv_flush {env : HEnv} {s : AgentState} (hInv : Inv s) :
    (∀ sE, flushAndReset env s = .error sE → Inv sE) ∧
    (∀ s' f, flushAndReset env s = .ok (s', f) → Inv s') := by
  constructor <;> intro x
  case left =>
    intro h
    unfold flushAndReset at h
    cases hpt : processTransactions env.penv s with
    | error sE2 =>
      rw [hpt] at h
      cases h
      exact inv_pt_error hInv hpt
    | ok p =>
      rcases p with ⟨s1, fnd⟩
      rw [hpt] at h
      dsimp only at h
      have hf := pt_frame env.penv s
      rw [hpt] at hf
      have hnil : s1.globalAddedEdges = [] := hf.2.2.2.2.1
      cases hsh : shedStages env s1 with
      | error sE2 =>
        rw [hsh] at h
        cases h
        rcases shedStages_error_state hsh with h2 | h2 <;> subst h2
        · exact inv_gae_nil hnil
        · exact inv_gae_nil hnil
      | ok s2 =>
        rw [hsh] at h
        cases h
  case right =>
    intro f h
    unfold flushAndReset at h
    cases hpt : processTransactions env.penv s with
    | error sE2 => rw [hpt] at h; cases h
    | ok p =>
      rcases p with ⟨s1, fnd⟩
      rw [hpt] at h
      dsimp only at h
      have hf := pt_frame env.penv s
      rw [hpt] at hf
      have hnil : s1.globalAddedEdges = [] := hf.2.2.2.2.1
      cases hsh : shedStages env s1 with
      | error sE2 => rw [hsh] at h; cases h
      | ok s2 =>
        rw [hsh] at h
        cases h
        have h2 := shedStages_ok_state hsh
        subst h2
        exact inv_gae_nil hnil

theorem inv_handle {N : Nat} {env : HEnv} {s : AgentState} (hInv : Inv s) :
    (∀ sE, handleTransactionAsync N env s = .error sE → Inv sE) ∧
    (∀ s' f, handleTransactionAsync N env s = .ok (s', f) → Inv s') := by
  cases hp : env.passesHeuristics with
  | false =>
    constructor
    · intro sE h
      unfold handleTransactionAsync at h
      rw [hp, if_neg (by decide)] at h
      cases h
    · intro s' f h
      unfold handleTransactionAsync at h
      rw [hp, if_neg (by decide)] at h
      cases h
      exact hInv
  | true =>
    rcases le_or_lt N (s.counter + 1) with hN | hN
    · rw [handle_flush_eq N env s hp hN]
      exact inv_flush (inv_preFlush hInv)
    · constructor
      · intro sE h
        rw [handle_no_flush_eq N env s hp hN] at h
        cases h
      · intro s' f h
        rw [handle_no_flush_eq N env s hp hN] at h
        cases h
        exact inv_preFlush hInv

/-! ## Reachable process states

The process starts (src/utils/globals initialization plus
initialize_global_graph at lines 43-46) with an empty added-edge accumulator
and the counter at zero; the raw table, the graphs and the flags may hold
anything a previous process run left behind.  From there the only mutator is
handle_transaction_async, whether it returns or raises. -/
inductive Reachable : AgentState → Prop where
  | init : ∀ s : AgentState, s.globalAddedEdges = [] → s.counter = 0 → Reachable s
  | stepOk : ∀ (N : Nat) (env : HEnv) (s s' : AgentState) (f : List Finding),
      Reachable s → handleTransactionAsync N env s = .ok (s', f) → Reachable s'
  | stepErr : ∀ (N : Nat) (env : HEnv) (s s' : AgentState),
      Reachable s → handleTransactionAsync N env s = .error s' → Reachable s'

theorem inv_reachable {s : AgentState} (h : Reachable s) : Inv s := by
  induction h with
  | init s hg _ => exact inv_gae_nil hg
  | stepOk N env s s' f _ hstep ih => exact (inv_handle ih).2 s' f hstep
  | stepErr N env s s' _ hstep ih => exact (inv_handle ih).1 s' hstep


/-! ## The CommunityMerger contract -/

/-- The members two communities share. -/
def sharedMembers (c d : List Nat) : Nat :=
  (c.filter (fun x => decide (x ∈ d))).length

/-- Union of two communities' node sets, keeping the durable one's order. -/
def nodeUnion (d c : List Nat) : List Nat :=
  d ++ c.filter (fun x => decide (x ∉ d))

/-- Fold one batch community into the durable community graph: it merges
with the first durable community sharing a majority of that community's
membership, otherwise it is added as-is. -/
def mergeOneCommunity (durable : List (List Nat)) (c : List Nat) :
    List (List Nat) :=
  match durable.findIdx? (fun d => decide (d.length < 2 * sharedMembers c d)) with
  | some i => durable.set i (nodeUnion (durable.getD i []) c)
  | none => durable ++ [c]

/-- Modelled from the spec: CommunityMerger (merge_new_communities in
src/dynamic/dynamic_communities.py, absent from the snapshot; its call site,
agent.py lines 120-126, is commented out).  "Two communities are the same
underlying community if their node-overlap exceeds a fixed fraction (e.g.
majority shared membership); matched communities are merged by union of
nodes and edges; unmatched new communities are added as-is; communities with
no evidence in the current batch are left untouched." -/
def mergeNewCommunitiesSpec (durable batch : List (List Nat)) :
    List (List Nat) :=
  batch.foldl mergeOneCommunity durable

/-! ## Concrete scenarios used by the closed theorems -/

/-- The outcome of a run as the caller sees a raise: the state at the raise
point, when the run raised. -/
def errState : Except AgentState (AgentState × List Finding) → Option AgentState
  | .error s => some s
  | .ok _ => none

/-- The state after a run that returned normally, when it did. -/
def okState : Except AgentState (AgentState × List Finding) → Option AgentState
  | .ok (s, _) => some s
  | .error _ => none

/-- One admitted transfer 10 → 20. -/
def tAB : Transfer := ⟨1, 10, 20, 5, 0, false⟩

/-- The same row once marked processed. -/
def tABdone : Transfer := ⟨1, 10, 20, 5, 0, true⟩

/-- A pipeline environment in which no statement raises and the external
collaborators behave simply: the partitioner finds the community {10, 20},
scoring passes it through, the final merge appends node 7, the database
write reports one finding. -/
def pEnvOk : PEnv where
  fails := fun _ => false
  runAlgorithm := fun _ => [[10, 20]]
  processPartitions := fun p _ => p
  analyzeCommunities := fun c => some c
  mergeFinalGraphs := fun _ g => ⟨g.nodes ++ [(7, [])], g.edges⟩
  writeGraphToDatabase := fun _ => [⟨1, [10, 20]⟩]

/-- Like `pEnvOk` but write_graph_to_database (line 157) raises. -/
def pEnvFailDB : PEnv := {pEnvOk with fails := fun st => st matches .writingDB}

/-- Like `pEnvOk` but add_transactions_to_graph (line 99) raises. -/
def pEnvFailBuild : PEnv := {pEnvOk with fails := fun st => st matches .building}

/-- A fresh process: empty table, empty graphs, first batch ahead. -/
def stateFresh : AgentState := ⟨0, [], [], [], [], none, true⟩

/-- A process mid-stream: counter at 5, one unprocessed transfer, a
previously persisted one-node final graph. -/
def fgOld : FGraph := ⟨[(99, [])], []⟩
def fgOverwritten : FGraph := ⟨[(99, []), (7, [])], []⟩
def stateMid : AgentState := ⟨5, [tAB], [], [], [], some fgOld, false⟩

/-- The state `processTransactions pEnvFailDB stateMid` raises with. -/
def stateMidErr : AgentState :=
  ⟨5, [tAB], [(10, 20)], [(10, 20)], [], some fgOverwritten, false⟩

/-- An event handler environment that admits the event, inserts the row,
runs `pEnvOk` and evicts nothing. -/
def hEnvOk : HEnv := ⟨true, false, tAB, pEnvOk, false, false, 100, 50⟩

/-- Like `hEnvOk` but shed_oldest_Transfers (line 77) raises. -/
def hEnvShedFail : HEnv := {hEnvOk with shedTransfersFails := true}

/-- Like `hEnvOk` but the row insert of lines 60-68 fails (and is rolled
back and only logged). -/
def hEnvInsFail : HEnv := {hEnvOk with insertFails := true}

/-- Like `hEnvInsFail` but the pipeline then raises at line 99. -/
def hEnvInsBuildFail : HEnv := {hEnvInsFail with penv := pEnvFailBuild}

/-- The state after a fully successful one-event flush from `stateFresh`. -/
def fgSeven : FGraph := ⟨[(7, [])], []⟩
def stateFlushed : AgentState := ⟨0, [tABdone], [(10, 20)], [], [], some fgSeven, false⟩


/-! ## The Alembic migration f04874bb37a6 ("changed id to integer") -/

/-- A column type as the migration script names them. -/
inductive ColType where
  | varchar (n : Nat)
  | integer
deriving Repr, DecidableEq

/-- One Alembic operation of the migration script:
`op.alter_column(table, column, existing_type, type_)`. -/
inductive MigrationOp where
  | alterColumn (table col : String) (existingType newType : ColType)
deriving Repr, DecidableEq

def opColumn : MigrationOp → String
  | .alterColumn _ c _ _ => c

def opTable : MigrationOp → String
  | .alterColumn t _ _ _ => t

/-- src/alembic/versions/f04874bb37a6_changed_id_to_integer.py lines 21-33,
upgrade(): exactly two alter_column operations, one per primary-key
column. -/
def upgradeOps : List MigrationOp :=
  [ .alterColumn "eoas" "id" (.varchar 36) .integer,
    .alterColumn "suspicious_clusters" "id" (.varchar 36) .integer ]

/-- The columns the modelled schema tracks.  Modelled from the spec: EOA rows
carry a cluster reference to SuspiciousCluster ids (the EOA table of
src/database/models.py, absent from the snapshot; the spec's data model lists
"EOA (node): address, integer id, optional cluster reference").  The
reference column is called cluster_id here. -/
structure DbSchema where
  eoasId : ColType
  suspiciousClustersId : ColType
  eoasClusterRef : ColType
deriving Repr, DecidableEq

/-- Before the migration every id (and hence every reference to one) is an
opaque 36-character string key. -/
def preMigrationSchema : DbSchema := ⟨.varchar 36, .varchar 36, .varchar 36⟩

/-- Apply one alter_column to the modelled schema.  An operation on a column
the model does not track leaves the schema unchanged. -/
def applyOp (s : DbSchema) : MigrationOp → DbSchema
  | .alterColumn t c _ ty =>
    if t == "eoas" && c == "id" then {s with eoasId := ty}
    else if t == "suspicious_clusters" && c == "id" then
      {s with suspiciousClustersId := ty}
    else if t == "eoas" && c == "cluster_id" then {s with eoasClusterRef := ty}
    else s

/-- The schema upgrade() leaves behind. -/
def runUpgrade : DbSchema := upgradeOps.foldl applyOp preMigrationSchema


/-- The state a one-event flush from `stateFresh` has reached when the
Evictor (line 77) raises: rows processed, snapshot saved, counter still 1.
-/
def stateFlushed1 : AgentState :=
  ⟨1, [tABdone], [(10, 20)], [], [], some fgSeven, false⟩

/-- The state at the raise when the insert failed and line 99 raises on the
first event: only the counter has moved. -/
def stateBuildErr : AgentState := ⟨0 + 1, [], [], [], [], none, true⟩

/-- A final graph carrying one dict-shaped (structured-record) node
attribute. -/
def fgDictAttr : FGraph :=
  ⟨[(1, [("meta", .dict [("k", .int 1)])])], []⟩

/-- What the serialization loop of lines 141-153 does to one attribute
value, by shape: class objects become scalar text; lists become scalar text
or abort; every other shape — scalars, but also dicts — passes through
unchanged. -/
def ConvShape (v : AttrValue) : Prop :=
  match v with
  | .typeVal n => convertValue (.typeVal n) = .ok (.str ("<class " ++ n ++ ">"))
  | .list xs =>
      (∃ s, convertValue (.list xs) = .ok (.str s)) ∨
      convertValue (.list xs) = .error ()
  | .dict es => convertValue (.dict es) = .ok (.dict es)
  | .str a => convertValue (.str a) = .ok (.str a)
  | .int n => convertValue (.int n) = .ok (.int n)
  | .bool b => convertValue (.bool b) = .ok (.bool b)

/-- A fresh process in front of its very first batch, with a stale persisted
final-graph file lying around. -/
def stateFreshWithFile : AgentState := ⟨0, [], [], [], [], some fgOld, true⟩

/-- A process start with one leftover unprocessed row in the table. -/
def stateOneRow : AgentState := ⟨0, [tAB], [], [], [], none, true⟩

/-! ## The claims -/

/-- C1: the claim says a failure in any stage Building through Persisting
leaves the persisted final graph unchanged and no partially-applied batch
state observable.  The code violates this: save_graph (line 155) overwrites
the persisted snapshot before write_graph_to_database (line 157) and the
processed-flag commit (lines 159-161).  Evaluating the pipeline on a batch
whose database write raises: the run aborts (the caller sees the raise, no
findings), yet the persisted final graph has already been overwritten (two
nodes instead of the one the prior snapshot held) while every batch row is
still unprocessed — exactly the partially-applied state the claim rules
out. -/
theorem c1_final_graph_overwritten_on_aborted_batch :
    errState (processTransactions pEnvFailDB stateMid) = some stateMidErr ∧
    stateMid.finalFile = some fgOld ∧
    stateMidErr.finalFile = some fgOverwritten ∧
    fgOld.nodes.length = 1 ∧ fgOverwritten.nodes.length = 2 ∧
    stateMidErr.transfers.all (fun t => !t.processed) = true := by
  refine ⟨rfl, rfl, rfl, rfl, rfl, rfl⟩

/-- C2: the claim says every executed batch folds its communities into the
durable community graph (CommunityMerger) before suspicion scoring.  The
call is commented out in the source (agent.py lines 120-126), so the durable
community graph is never updated: on a successfully executed batch whose
partitioner finds the community {10, 20} over an empty durable graph, the
durable graph afterwards is still empty, while the spec-modelled
overlap-based merge of its prior value with the batch communities is not. -/
theorem c2_community_merge_never_runs :
    (okState (processTransactions pEnvOk stateFresh)).map (fun s => s.g2) =
      some stateFresh.g2 ∧
    pEnvOk.runAlgorithm (subgraphEdges (afterExtendState stateFresh)) = [[10, 20]] ∧
    mergeNewCommunitiesSpec stateFresh.g2 [[10, 20]] = [[10, 20]] ∧
    ([[10, 20]] : List (List Nat)) ≠ stateFresh.g2 := by
  refine ⟨rfl, rfl, rfl, by decide⟩

/-- C3 (counterexample): the claim's parenthetical says a failure in Evicting
alone is non-fatal and still proceeds to Idle.  In the code the Evictor runs
before the counter reset and its raise propagates: on a one-event flush from
a fresh state in which only shed_oldest_Transfers raises, the handler raises
to its caller (the findings are lost) and the counter stays at 1 instead of
being reset — the eviction failure is fatal. -/
theorem c3_eviction_failure_is_fatal :
    errState (handleTransactionAsync 1 hEnvShedFail stateFresh) =
      some stateFlushed1 ∧
    stateFlushed1.counter = 1 := by
  refine ⟨rfl, rfl⟩

/-- C3 (amended): the counter is reset to zero only when the pipeline AND
the eviction calls all succeed; any raise in Building through Persisting —
and, contrary to the spec's non-fatal intent, also in Evicting — propagates
to the caller and leaves the counter at its pre-flush value (the value after
the line-69 increment); the counter is never zeroed on a failed batch. -/
theorem c3_counter_retained_on_any_failure (N : Nat) (env : HEnv)
    (s sE : AgentState) (h : handleTransactionAsync N env s = .error sE) :
    sE.counter = s.counter + 1 ∧ sE.counter ≠ 0 := by
  have hc := handle_error_counter h
  exact ⟨hc, by rw [hc]; exact Nat.succ_ne_zero _⟩

/-- C3 witness: the amended theorem applied to the concrete run in which the
event's row insert fails and the pipeline then raises at line 99. -/
theorem c3_counter_retained_witness :
    stateBuildErr.counter = stateFresh.counter + 1 ∧ stateBuildErr.counter ≠ 0 :=
  c3_counter_retained_on_any_failure 1 hEnvInsBuildFail stateFresh stateBuildErr rfl

/-- C4: after any successful flush — the handler returned normally on an
admitted event that reached the threshold — the counter is zero and every
Transfer row still in the table (in particular every row of the flushed
batch) is marked processed, so the count of unprocessed Transfers referenced
by the batch is 0. -/
theorem c4_successful_flush_resets (N : Nat) (env : HEnv) (s s2 : AgentState)
    (f : List Finding) (hp : env.passesHeuristics = true)
    (hN : N ≤ s.counter + 1)
    (h : handleTransactionAsync N env s = .ok (s2, f)) :
    s2.counter = 0 ∧ ∀ t ∈ s2.transfers, t.processed = true := by
  rw [handle_flush_eq N env s hp hN] at h
  exact flushAndReset_ok_state h

/-- C4 witness: the theorem applied to a concrete one-event flush from a
fresh state. -/
theorem c4_successful_flush_witness :
    stateFlushed.counter = 0 ∧
    stateFlushed.transfers.all (fun t => t.processed) = true := by
  have h := c4_successful_flush_resets 1 hEnvOk stateFresh stateFlushed
    [⟨1, [10, 20]⟩] rfl (by decide) rfl
  exact ⟨h.1, List.all_eq_true.mpr (fun t ht => h.2 t ht)⟩

/-- C5: a failure inserting an admitted event's row (lines 60-68) is
contained to that insert: the row is dropped (rolled back) but the handler
never aborts because of it — any raise it can surface comes from a flush,
which only happens at the threshold; below the threshold it returns normally
with the table unchanged and the event counted; at the threshold the flush
still runs, on the rolled-back state. -/
theorem c5_insert_failure_contained (N : Nat) (env : HEnv) (s : AgentState)
    (hi : env.insertFails = true) (hp : env.passesHeuristics = true) :
    (∀ sE, handleTransactionAsync N env s = .error sE → N ≤ s.counter + 1) ∧
    (s.counter + 1 < N →
      handleTransactionAsync N env s = .ok ({s with counter := s.counter + 1}, [])) ∧
    (N ≤ s.counter + 1 →
      handleTransactionAsync N env s =
        flushAndReset env {s with counter := s.counter + 1}) := by
  have ha : afterInsertState env s = s := by
    unfold afterInsertState
    rw [hi, if_pos rfl]
  have hpre : preFlushState env s = {s with counter := s.counter + 1} := by
    unfold preFlushState
    rw [ha]
  refine ⟨?_, ?_, ?_⟩
  · intro sE h
    rcases le_or_lt N (s.counter + 1) with hN | hN
    · exact hN
    · rw [handle_no_flush_eq N env s hp hN] at h
      cases h
  · intro hN
    rw [handle_no_flush_eq N env s hp hN, hpre]
  · intro hN
    rw [handle_flush_eq N env s hp hN, hpre]

/-- C5 witness: the theorem applied to a concrete at-threshold event whose
row insert fails — the flush still runs, on the state without the row. -/
theorem c5_insert_failure_witness :
    handleTransactionAsync 1 hEnvInsFail stateFresh =
      flushAndReset hEnvInsFail {stateFresh with counter := 1} :=
  (c5_insert_failure_contained 1 hEnvInsFail stateFresh rfl rfl).2.2 (by decide)

/-- C6 (counterexample): the claim says every non-scalar attribute value
(structured records, enumerations, lists — any non-scalar shape) is
converted to a portable scalar before the graph reaches the persistence
layer, aborting if it cannot be converted.  The loop of lines 141-153
converts only class objects and lists: a dict-shaped (structured-record)
node attribute passes through the serialization step unchanged and without
any abort, so the graph handed to save_graph still carries a non-scalar
attribute. -/
theorem c6_dict_attribute_not_converted :
    serializeFinalGraph fgDictAttr = .ok fgDictAttr ∧
    graphHasNonScalar fgDictAttr = true := by
  refine ⟨rfl, rfl⟩

/-- C6 (amended): before saving, the serialization loop converts exactly the
class-shaped and list-shaped attribute values to scalar text (a list that
json.dumps cannot encode aborts the batch); scalar values pass through
unchanged; every other non-scalar shape — dict-shaped values in particular —
is handed to the persistence layer unconverted, so the loop alone does not
guarantee a scalar-only persisted graph. -/
theorem c6_conversion_acts_only_on_types_and_lists (v : AttrValue) :
    ConvShape v := by
  cases v with
  | typeVal n => exact rfl
  | list xs =>
    unfold ConvShape
    cases hj : jsonDumps (.list xs) with
    | none =>
      right
      simp only [convertValue, hj]
    | some s =>
      left
      refine ⟨s, ?_⟩
      simp only [convertValue, hj]
  | dict es => exact rfl
  | str a => exact rfl
  | int n => exact rfl
  | bool b => exact rfl

/-- C7: which graph FinalGraphMerger starts from is decided by the explicit
flag globals.is_initial_batch, not by a file-not-found path: whenever the
flag is set the merge starts from the empty graph (even if a persisted file
exists) and the flag is cleared; whenever it is clear the persisted final
graph is loaded fresh; and any batch that runs to completion leaves the flag
cleared. -/
theorem c7_first_batch_decided_by_flag (env : PEnv) (s : AgentState) :
    (s.isInitialBatch = true →
      initialFinalGraph env s =
        .ok (emptyFGraph, {s with isInitialBatch := false})) ∧
    (s.isInitialBatch = false → env.fails .loadingFinal = false →
      ∀ g, s.finalFile = some g → initialFinalGraph env s = .ok (g, s)) ∧
    (∀ r, processTransactions env s = .ok r → r.1.isInitialBatch = false) := by
  refine ⟨?_, ?_, ?_⟩
  · intro hflag
    unfold initialFinalGraph
    rw [hflag]
    rw [if_neg (by decide)]
  · intro hflag hload g hfile
    unfold initialFinalGraph
    rw [hflag, if_pos rfl, hload, if_neg (by decide)]
    unfold loadGraph
    rw [hfile]
  · intro r h
    have hf := pt_frame env s
    rw [h] at hf
    exact hf.2.2.2.2.2.1

/-- C7 witness: the theorem's first-batch case applied to the fresh state
and to a first batch on which a stale persisted file exists: the flag, not
the file, decides. -/
theorem c7_first_batch_witness :
    initialFinalGraph pEnvOk stateFreshWithFile =
      .ok (emptyFGraph, {stateFreshWithFile with isInitialBatch := false}) :=
  (c7_first_batch_decided_by_flag pEnvOk stateFreshWithFile).1 rfl

/-- C8: in every reachable process state, the subgraph handed to the
Partitioner (the induced subgraph of G1 over globals.global_added_edges
after lines 99-110) has exactly the edges touched by the current batch's
transfers: no edge touched only by an earlier batch appears, because the
accumulator is cleared on every successful flush and edges left by a failed
flush belong to rows that are still unprocessed and hence part of the
current batch. -/
theorem c8_partitioner_sees_exactly_batch_edges (s : AgentState)
    (hs : Reachable s) (e : GEdge) :
    e ∈ subgraphEdges (afterExtendState s) ↔
      e ∈ addTransactionsToGraph (batchOf s) := by
  have hInv := inv_reachable hs
  constructor
  · intro he
    rcases List.mem_filter.mp he with ⟨hmem, -⟩
    have hmem2 : e ∈ s.globalAddedEdges ++ addTransactionsToGraph (batchOf s) :=
      hmem
    rcases List.mem_append.mp hmem2 with h1 | h1
    · exact (hInv e h1).1
    · exact h1
  · intro he
    apply List.mem_filter.mpr
    constructor
    · exact List.mem_append_right _ he
    · exact decide_eq_true (List.mem_append_right _ he)

/-- C8 witness: the theorem applied to a reachable one-unprocessed-transfer
state (reachable as a process start with a leftover table row), at the edge
that transfer touches. -/
theorem c8_partitioner_scope_witness :
    ((10, 20) ∈ subgraphEdges (afterExtendState stateOneRow) ↔
      (10, 20) ∈ addTransactionsToGraph (batchOf stateOneRow)) ∧
    (10, 20) ∈ addTransactionsToGraph (batchOf stateOneRow) :=
  ⟨c8_partitioner_sees_exactly_batch_edges stateOneRow
      (Reachable.init stateOneRow rfl rfl) (10, 20),
   by decide⟩

/-- C9: the claim says the string-to-integer key migration updates all
cross-references (the EOA rows' cluster reference) atomically together with
the key change.  upgrade() consists of exactly two alter_column operations,
both on a column named id: run on the pre-migration schema it retypes the
two primary keys but leaves the EOA cluster-reference column as the old
36-character string type, referencing renumbered integer keys — no
cross-reference is updated. -/
theorem c9_cluster_reference_left_behind :
    runUpgrade.eoasId = ColType.integer ∧
    runUpgrade.suspiciousClustersId = ColType.integer ∧
    runUpgrade.eoasClusterRef = ColType.varchar 36 ∧
    upgradeOps.all (fun op => opColumn op == "id") = true := by
  refine ⟨rfl, rfl, rfl, rfl⟩

/-- C10: the counter increment of line 69 runs outside the insert's
try/except, so an admitted event whose row insert failed and was rolled back
still counts toward the batch threshold: below the threshold the handler
returns normally with the counter incremented and the Transfer table exactly
as before — the counter can therefore exceed the number of rows actually
stored. -/
theorem c10_dropped_row_still_counted (N : Nat) (env : HEnv) (s : AgentState)
    (hi : env.insertFails = true) (hp : env.passesHeuristics = true)
    (hN : s.counter + 1 < N) :
    handleTransactionAsync N env s = .ok ({s with counter := s.counter + 1}, []) := by
  have ha : afterInsertState env s = s := by
    unfold afterInsertState
    rw [hi, if_pos rfl]
  have hpre : preFlushState env s = {s with counter := s.counter + 1} := by
    unfold preFlushState
    rw [ha]
  rw [handle_no_flush_eq N env s hp hN, hpre]

/-- C10 witness: from an empty table with the threshold not yet reached, one
admitted event with a failed insert leaves the counter at 1 while zero rows
are stored. -/
theorem c10_dropped_row_witness :
    handleTransactionAsync 2 hEnvInsFail stateFresh =
      .ok ({stateFresh with counter := 1}, []) ∧
    ({stateFresh with counter := 1}).transfers.length <
      ({stateFresh with counter := 1}).counter :=
  ⟨c10_dropped_row_still_counted 2 hEnvInsFail stateFresh rfl rfl (by decide),
   by decide⟩

end SybilDefender
